import Mathlib

/-!
# Kmart Stock Monitor — shallow embedding of the monitoring engine

This file embeds the core monitoring engine of the Shopping_Cart
repository (background service worker, anti-detection utilities) as pure
Lean functions and proves properties of the embedded code.

Conventions of the embedding:
* JavaScript numbers used for prices, percentages and random factors are
  modelled as rationals (`ℚ`); timestamps and millisecond delays as `ℤ`
  or `ℕ`; `Math.round` as `⌊x + 1/2⌋` (which agrees with JS rounding of
  half toward positive infinity).
* Possibly-`undefined` fields of loosely typed records are modelled as
  `Option`; JS truthiness on strings is `s ≠ ""`.
* `Math.random()`-driven code takes the random outcome as an explicit
  parameter (`r ∈ [-1, 1]` for the centred jitter factor), as the spec
  requires an injected random source.
* String operations (`toLowerCase`, `trim`, `includes`, `split(/\s+/)`)
  are embedded over `List Char`; `split(/\s+/)` on a trimmed string has
  no empty segments, so it is embedded as whitespace tokenisation.
-/

namespace KSM

/-- Stock status of a product (`stockStatus` field). -/
inductive StockStatus where
  | inStock
  | outOfStock
  | limited
  | unknown
deriving DecidableEq, Repr

/-- Monitor lifecycle state (`monitorState` field). -/
inductive MonitorState where
  | active
  | paused
  | error
deriving DecidableEq, Repr

/-- A variant option as parsed from the page. -/
structure Variant where
  value : String
  available : Bool
deriving DecidableEq, Repr

/-- One history entry (`snapshot` object built in `checkProduct`). -/
structure Snapshot where
  timestamp : ℤ
  price : ℚ
  stockStatus : StockStatus
  variantsAvailable : List String
deriving DecidableEq, Repr

/-- A stored monitored product (the fields the engine reads/writes). -/
structure Product where
  url : String
  name : String
  imageUrl : String
  currentPrice : ℚ
  previousPrice : Option ℚ
  stockStatus : StockStatus
  monitorState : MonitorState
  errorCount : ℕ
  lastError : Option String
  lastChecked : Option ℤ
  lastInStock : Option ℤ
  history : List Snapshot
  maxPurchaseQty : Option ℕ
  autoAddToCart : Bool
deriving DecidableEq, Repr

/-- A raw fetched snapshot candidate, as produced by the page parser.
Fields may be absent (`undefined` in JS). -/
structure ProductData where
  name : Option String
  price : Option ℚ
  imageUrl : Option String
  stockStatus : StockStatus
  variants : List Variant
  maxPurchaseQty : Option ℕ
deriving DecidableEq, Repr

/-- The settings fields read by `checkProduct`. -/
structure Settings where
  priceDropThreshold : ℚ
  maxHistoryPerProduct : ℕ
  notificationsEnabled : Bool
  audioAlertEnabled : Bool
  webhookEnabled : Bool
  globalAutoAdd : Bool
deriving DecidableEq, Repr

/-! ## String helpers (JS semantics) -/

/-- Whitespace test matching JS `\s` on the ASCII range. -/
def isWs (c : Char) : Bool := c.isWhitespace

/-- JS `String.prototype.trim` on the character list. -/
def trimChars (l : List Char) : List Char :=
  ((l.dropWhile isWs).reverse.dropWhile isWs).reverse

/-- JS `String.prototype.trim`. -/
def jsTrim (s : String) : String := ⟨trimChars s.data⟩

/-- JS `String.prototype.toLowerCase` (ASCII range). -/
def jsToLower (s : String) : String := ⟨s.data.map Char.toLower⟩

/-- Does `l` start with `pre`? -/
def startsWithChars : List Char → List Char → Bool
  | _, [] => true
  | [], _ :: _ => false
  | a :: as, b :: bs => a == b && startsWithChars as bs

/-- Does `hay` contain `needle` as a contiguous run (JS `includes`)? -/
def hasSub (needle : List Char) : List Char → Bool
  | [] => needle == []
  | c :: t => startsWithChars (c :: t) needle || hasSub needle t

/-- JS `hay.includes(needle)`. -/
def strIncludes (hay needle : String) : Bool := hasSub needle.data hay.data

/-- Tokenise into maximal whitespace-free words.  On a trimmed non-empty
string this agrees with JS `split(/\s+/)`. -/
def wordsAux : List Char → List Char → List (List Char)
  | [], acc => if acc == [] then [] else [acc.reverse]
  | c :: cs, acc =>
    if isWs c then
      if acc == [] then wordsAux cs [] else acc.reverse :: wordsAux cs []
    else wordsAux cs (c :: acc)

/-- The word list of a string. -/
def jsWords (s : String) : List (List Char) := wordsAux s.data []

/-! ## Validity classifier (`isValidProductData`, newer engine) -/

/-- The fixed junk-phrase list of the classifier. -/
def junkPhrases : List String :=
  ["page not found", "not found", "404", "error", "sorry", "oops",
   "something went wrong", "access denied", "just a moment",
   "unknown product", "can\x27t be found", "cannot be found",
   "no longer available", "doesn\x27t exist", "does not exist",
   "unavailable", "we couldn\x27t find", "we could not find",
   "kmart australia", "attention required", "please verify",
   "checking your browser"]

/-- The fixed filler-word set of signal 4. -/
def fillerWords : List String :=
  ["the", "you", "your", "this", "that", "for", "are", "was", "were",
   "our", "please"]

/-- The case-folded, trimmed name used by signals 2–4
(`data.name.toLowerCase().trim()`). -/
def normName (nm : String) : String := jsTrim (jsToLower nm)

/-- Signal 1: missing name, or trimmed name shorter than 3 characters
(`!data.name || data.name.trim().length < 3`; a present empty string is
falsy in JS but also has trimmed length 0 < 3). -/
def rejShortName (d : ProductData) : Bool :=
  match d.name with
  | none => true
  | some nm => (jsTrim nm).data.length < 3

/-- Signal 2: the case-folded name contains a junk phrase. -/
def rejJunkPhrase (d : ProductData) : Bool :=
  match d.name with
  | none => false
  | some nm => junkPhrases.any (fun j => strIncludes (normName nm) j)

/-- `hasPrice`: a numeric price strictly greater than 0. -/
def hasPrice (d : ProductData) : Bool :=
  match d.price with
  | some p => decide (0 < p)
  | none => false

/-- `hasImage`: a string image URL longer than 10 characters. -/
def hasImage (d : ProductData) : Bool :=
  match d.imageUrl with
  | some u => decide (10 < u.data.length)
  | none => false

/-- Signal 3: neither a usable price nor a usable image reference. -/
def rejNoPriceNoImage (d : ProductData) : Bool :=
  !hasPrice d && !hasImage d

/-- Signal 4: the name reads as a sentence — at least 6 words with at
least 3 from the filler-word set. -/
def rejSentenceName (d : ProductData) : Bool :=
  match d.name with
  | none => false
  | some nm =>
    let ws := jsWords (normName nm)
    let fillers := ws.filter (fun w => fillerWords.any (fun f => f.data == w))
    6 ≤ ws.length && 3 ≤ fillers.length

/-- `isValidProductData` of the newer engine: the four ordered rejection
signals, first match rejects. -/
def isValidProductData (d : ProductData) : Bool :=
  match d.name with
  | none => false
  | some nm =>
    if (jsTrim nm).data.length < 3 then false
    else
      let name := normName nm
      if junkPhrases.any (fun j => strIncludes name j) then false
      else if !hasPrice d && !hasImage d then false
      else
        let ws := jsWords name
        let fillers := ws.filter (fun w => fillerWords.any (fun f => f.data == w))
        if 6 ≤ ws.length && 3 ≤ fillers.length then false
        else true

/-! ## Anti-detection utilities (`jitter`, `backoffDelay`) -/

/-- JS `Math.round` on a rational: round half toward positive infinity. -/
def jsRound (q : ℚ) : ℤ := ⌊q + 1 / 2⌋

/-- `jitter(baseMs, jitterPct)`: `Math.round(baseMs * (1 + r * jitterPct/100))`
where `r = Math.random() * 2 - 1` is the injected random outcome. -/
def jitter (baseMs : ℚ) (jitterPct : ℚ) (r : ℚ) : ℤ :=
  jsRound (baseMs * (1 + r * (jitterPct / 100)))

/-- `backoffDelay(errorCount)`: exponential backoff with base 1000 ms,
cap `5 * 60 * 1000` ms, then 20% jitter applied to the capped value. -/
def backoffDelay (errorCount : ℕ) (r : ℚ) : ℤ :=
  jitter (min ((1000 : ℚ) * 2 ^ errorCount) (5 * 60 * 1000)) 20 r

/-! ## `checkProduct` (newer engine) -/

/-- The observable side effects of one product check: log entries and
notifications, in emission order. -/
inductive Event where
  | errorLogged (msg : String)
  | errorThresholdNotified
  | pageGoneNotified
  | recoveredLogged
  | restocked
  | addToCartTriggered
  | soldOut
  | priceDrop (oldPrice newPrice : ℚ)
  | checked
deriving DecidableEq, Repr

/-- Outcome of `fetchProductData`: either a thrown error or parsed data. -/
inductive FetchOutcome where
  | failure (msg : String)
  | fetched (data : ProductData)
deriving DecidableEq, Repr

/-- Result of one `checkProduct` run: the product after the persisted
updates are applied, and the emitted events. -/
structure CheckResult where
  product : Product
  events : List Event
deriving DecidableEq, Repr

/-- The error message built on the junk path
(`data?.name || 'empty'` interpolated into the fixed text). -/
def junkErrorMsg (data : ProductData) : String :=
  "Page returned invalid data (possible 404 or taken down): \"" ++
    (match data.name with
     | some nm => if nm = "" then "empty" else nm
     | none => "empty") ++ "\""

/-- The candidate record the junk path builds from the *stored* product
to self-check its name (`{ name: product.name, price: product.currentPrice,
imageUrl: product.imageUrl }`; the remaining fields are absent in the JS
object and unread by the classifier). -/
def junkSelfCheck (p : Product) : ProductData :=
  { name := some p.name, price := some p.currentPrice,
    imageUrl := some p.imageUrl, stockStatus := .unknown,
    variants := [], maxPurchaseQty := none }

/-- `newPrice = data.price > 0 ? data.price : oldPrice`. -/
def newPriceOf (p : Product) (data : ProductData) : ℚ :=
  match data.price with
  | some q => if 0 < q then q else p.currentPrice
  | none => p.currentPrice

/-- The snapshot pushed onto the history on a valid check. -/
def checkSnapshot (p : Product) (data : ProductData) (now : ℤ) : Snapshot :=
  { timestamp := now
    price := newPriceOf p data
    stockStatus := data.stockStatus
    variantsAvailable := (data.variants.filter (fun v => v.available)).map (fun v => v.value) }

/-- Restock condition: `newStatus === 'in_stock' &&
(oldStatus === 'out_of_stock' || oldStatus === 'unknown')`. -/
def restockCond (p : Product) (data : ProductData) : Prop :=
  data.stockStatus = .inStock ∧
    (p.stockStatus = .outOfStock ∨ p.stockStatus = .unknown)

instance (p : Product) (data : ProductData) : Decidable (restockCond p data) := by
  unfold restockCond; infer_instance

/-- Price-decrease condition: `newPrice > 0 && oldPrice > 0 && newPrice < oldPrice`. -/
def dropCond (p : Product) (data : ProductData) : Prop :=
  0 < newPriceOf p data ∧ 0 < p.currentPrice ∧ newPriceOf p data < p.currentPrice

instance (p : Product) (data : ProductData) : Decidable (dropCond p data) := by
  unfold dropCond; infer_instance

/-- `dropPct = ((oldPrice - newPrice) / oldPrice) * 100`. -/
def dropPct (p : Product) (data : ProductData) : ℚ :=
  (p.currentPrice - newPriceOf p data) / p.currentPrice * 100

/-- `safeName`: prefer the fetched name only when it is non-empty and
longer than 3 characters. -/
def safeName (p : Product) (data : ProductData) : String :=
  match data.name with
  | some nm => if 3 < nm.data.length then nm else p.name
  | none => p.name

/-- `safeImage = data.imageUrl || product.imageUrl`. -/
def safeImage (p : Product) (data : ProductData) : String :=
  match data.imageUrl with
  | some u => if u = "" then p.imageUrl else u
  | none => p.imageUrl

/-- The product after the valid-path updates of `checkProduct`. -/
def validProduct (p : Product) (s : Settings) (now : ℤ) (data : ProductData) : Product :=
  { p with
    currentPrice := newPriceOf p data
    stockStatus := data.stockStatus
    lastChecked := some now
    errorCount := 0
    lastError := none
    history := (checkSnapshot p data now :: p.history).take s.maxHistoryPerProduct
    name := safeName p data
    imageUrl := safeImage p data
    maxPurchaseQty :=
      match data.maxPurchaseQty with
      | some m => some m
      | none => p.maxPurchaseQty
    monitorState := if p.monitorState = .error then .active else p.monitorState
    lastInStock := if restockCond p data then some now else p.lastInStock
    previousPrice := if dropCond p data then some p.currentPrice else p.previousPrice }

/-- The events emitted on the valid path, in source order. -/
def validEvents (p : Product) (s : Settings) (data : ProductData) : List Event :=
  (if p.monitorState = .error then [.recoveredLogged] else []) ++
  (if restockCond p data then
     [.restocked] ++
       (if p.autoAddToCart || s.globalAutoAdd then [.addToCartTriggered] else [])
   else []) ++
  (if data.stockStatus = .outOfStock ∧ p.stockStatus = .inStock then [.soldOut] else []) ++
  (if dropCond p data ∧ s.priceDropThreshold ≤ dropPct p data then
     [.priceDrop p.currentPrice (newPriceOf p data)]
   else []) ++
  [.checked]

/-- The product after the junk-path updates of `checkProduct`.  The URL
slug extractor `nameFromUrl` (string manipulation outside the engine's
decision logic) is passed as a parameter. -/
def junkProduct (nameFromUrl : String → String) (p : Product) (now : ℤ)
    (data : ProductData) : Product :=
  { p with
    lastChecked := some now
    errorCount := p.errorCount + 1
    lastError := some (junkErrorMsg data)
    name := if isValidProductData (junkSelfCheck p) then p.name else nameFromUrl p.url }

/-- The events emitted on the junk path. -/
def junkEvents (p : Product) (s : Settings) (data : ProductData) : List Event :=
  [.errorLogged (junkErrorMsg data)] ++
    (if p.errorCount + 1 = 10 ∧ s.notificationsEnabled then [.pageGoneNotified] else [])

/-- The product after the catch-path (total fetch failure) updates. -/
def failProduct (p : Product) (now : ℤ) (msg : String) : Product :=
  { p with
    lastChecked := some now
    errorCount := p.errorCount + 1
    lastError := some msg
    monitorState := if p.errorCount + 1 = 5 then .error else p.monitorState }

/-- The events emitted on the catch path. -/
def failEvents (p : Product) (s : Settings) (msg : String) : List Event :=
  [.errorLogged msg] ++
    (if p.errorCount + 1 = 5 ∧ s.notificationsEnabled then [.errorThresholdNotified] else [])

/-- One `checkProduct` run of the newer engine, as a pure state update
plus emitted events. -/
def checkProduct (nameFromUrl : String → String) (p : Product) (s : Settings)
    (now : ℤ) (outcome : FetchOutcome) : CheckResult :=
  match outcome with
  | .failure msg => ⟨failProduct p now msg, failEvents p s msg⟩
  | .fetched data =>
    if isValidProductData data then
      ⟨validProduct p s now data, validEvents p s data⟩
    else
      ⟨junkProduct nameFromUrl p now data, junkEvents p s data⟩

/-- The per-product portion of `monitorTick`: every eligible product is
checked in list order; a failed or junk-classified check is handled
inside `checkProduct` (or caught by the loop's `try`), so each item
yields a result and the loop never aborts. -/
def runTick (nameFromUrl : String → String) (s : Settings) (now : ℤ)
    (items : List (Product × FetchOutcome)) : List CheckResult :=
  items.map (fun it => checkProduct nameFromUrl it.1 s now it.2)

/-! ## Add-to-cart automation (newer engine, bounded retry) -/

/-- What one add-to-cart attempt yields: a success response (with
optional `pageMax` and warning), a failure response, or a thrown error. -/
inductive AttemptOutcome where
  | success (pageMax : Option ℕ) (warning : Option String)
  | failure (err : String)
  | thrown (err : String)
deriving DecidableEq, Repr

/-- Observable outcome of a `triggerAddToCart` run. -/
structure CartResult where
  attempts : ℕ
  sleeps : List ℕ
  succeeded : Bool
  failureLogged : Bool
  product : Product
deriving DecidableEq, Repr

def ADD_CART_MAX_RETRIES : ℕ := 3
def ADD_CART_BASE_DELAY : ℕ := 3000

/-- The only product update the add-to-cart workflow ever makes: store
`pageMax` as `maxPurchaseQty` when the success response carries a
positive one (`response.pageMax && response.pageMax > 0`). -/
def cartSuccessProduct (p : Product) (pageMax : Option ℕ) : Product :=
  match pageMax with
  | some m => if 0 < m then { p with maxPurchaseQty := some m } else p
  | none => p

/-- The retry loop of `triggerAddToCart`.  `attempt` is the 1-based
attempt counter, the second numeric argument the remaining attempt
budget; `f` gives the outcome of each attempt (each attempt acquires its
tab and sends its message afresh). -/
def cartGo (f : ℕ → AttemptOutcome) (p : Product) : ℕ → ℕ → CartResult
  | _, 0 => { attempts := 0, sleeps := [], succeeded := false,
              failureLogged := true, product := p }
  | attempt, rem + 1 =>
    match f attempt with
    | .success pageMax _ =>
      { attempts := 1, sleeps := [], succeeded := true, failureLogged := false,
        product := cartSuccessProduct p pageMax }
    | .failure _ =>
      if rem = 0 then
        { attempts := 1, sleeps := [], succeeded := false,
          failureLogged := true, product := p }
      else
        let r := cartGo f p (attempt + 1) rem
        { attempts := r.attempts + 1,
          sleeps := ADD_CART_BASE_DELAY * 2 ^ (attempt - 1) :: r.sleeps,
          succeeded := r.succeeded, failureLogged := r.failureLogged,
          product := r.product }
    | .thrown _ =>
      if rem = 0 then
        { attempts := 1, sleeps := [], succeeded := false,
          failureLogged := true, product := p }
      else
        let r := cartGo f p (attempt + 1) rem
        { attempts := r.attempts + 1,
          sleeps := ADD_CART_BASE_DELAY * 2 ^ (attempt - 1) :: r.sleeps,
          succeeded := r.succeeded, failureLogged := r.failureLogged,
          product := r.product }

/-- `triggerAddToCart` of the newer engine: up to 3 attempts, doubling
sleeps between consecutive attempts, a failure log entry after the final
failed attempt, and (on success) at most a `maxPurchaseQty` update. -/
def triggerAddToCart (f : ℕ → AttemptOutcome) (p : Product) : CartResult :=
  cartGo f p 1 ADD_CART_MAX_RETRIES

/-! ## Concrete fixtures for witnesses and counterexamples -/

/-- A fixed stand-in for the URL slug extractor. -/
def fSlug : String → String := fun _ => "Unknown Product"

/-- Default-like settings used in concrete runs. -/
def s₀ : Settings :=
  { priceDropThreshold := 10, maxHistoryPerProduct := 500,
    notificationsEnabled := true, audioAlertEnabled := true,
    webhookEnabled := false, globalAutoAdd := false }

/-- A healthy stored product. -/
def baseProduct : Product :=
  { url := "https://www.kmart.com.au/product/lego-technic-crane-43718702/"
    name := "Lego Technic Crane Set"
    imageUrl := "https://www.kmart.com.au/img/lego-crane.jpg"
    currentPrice := 99
    previousPrice := none
    stockStatus := .inStock
    monitorState := .active
    errorCount := 0
    lastError := none
    lastChecked := none
    lastInStock := none
    history := []
    maxPurchaseQty := none
    autoAddToCart := false }

/-- A junk fetched candidate (a 404 page title). -/
def junkData404 : ProductData :=
  { name := some "404", price := some 0, imageUrl := some "",
    stockStatus := .unknown, variants := [], maxPurchaseQty := none }

/-- A valid fetched candidate showing a price decrease to 80. -/
def dropData : ProductData :=
  { name := some "Lego Star Wars X Wing Fighter", price := some 80,
    imageUrl := some "https://www.kmart.com.au/img/xwing.jpg",
    stockStatus := .inStock, variants := [], maxPurchaseQty := none }

/-- One junk-classified check step on a fixed junk page. -/
def junkStep (q : Product) : Product :=
  (checkProduct fSlug q s₀ 0 (.fetched junkData404)).product

end KSM

namespace KSM

/-- Membership in a conditional segment of an event list. -/
theorem mem_ite_nil {α : Type} {c : Prop} [Decidable c] {l : List α} {x : α} :
    x ∈ (if c then l else []) ↔ c ∧ x ∈ l := by
  split_ifs with h <;> simp [h]

/-- C5 (counterexample): at error count 9 with random outcome `1/2` the
backoff delay is 330000 ms, strictly above the 300000 ms cap — jitter is
applied after capping, so the delay can exceed the cap. -/
theorem backoffDelay_exceeds_cap :
    backoffDelay 9 (1 / 2) = 330000 ∧ (300000 : ℤ) < backoffDelay 9 (1 / 2) := by
  have h : backoffDelay 9 (1 / 2) = 330000 := by
    unfold backoffDelay jitter jsRound
    norm_num [min_def]
  exact ⟨h, by rw [h]; norm_num⟩

/-- C5 (amended): for every error count `n` and every outcome `r ∈ [-1, 1]`
of the injected random source, the backoff delay equals
`jitter(min(1000·2^n, 300000), 20%)` and is at most `1.2 ×` the cap,
i.e. 360000 ms. -/
theorem backoffDelay_eq_jitter_and_bounded (n : ℕ) (r : ℚ)
    (h1 : -1 ≤ r) (h2 : r ≤ 1) :
    backoffDelay n r = jitter (min ((1000 : ℚ) * 2 ^ n) 300000) 20 r ∧
      backoffDelay n r ≤ 360000 := by
  constructor
  · norm_num [backoffDelay]
  · unfold backoffDelay jitter jsRound
    have hb0 : (0 : ℚ) ≤ min ((1000 : ℚ) * 2 ^ n) (5 * 60 * 1000) :=
      le_min (by positivity) (by norm_num)
    have hble : min ((1000 : ℚ) * 2 ^ n) (5 * 60 * 1000) ≤ 300000 := by
      calc min ((1000 : ℚ) * 2 ^ n) (5 * 60 * 1000) ≤ 5 * 60 * 1000 :=
            min_le_right _ _
        _ = 300000 := by norm_num
    have hf : 1 + r * (20 / 100) ≤ 6 / 5 := by linarith
    have hf0 : (0 : ℚ) ≤ 1 + r * (20 / 100) := by linarith
    have hmul : min ((1000 : ℚ) * 2 ^ n) (5 * 60 * 1000) * (1 + r * (20 / 100)) ≤
        300000 * (6 / 5) :=
      mul_le_mul hble hf hf0 (by norm_num)
    have hfl : (⌊min ((1000 : ℚ) * 2 ^ n) (5 * 60 * 1000) * (1 + r * (20 / 100)) + 1 / 2⌋ : ℤ) ≤
        ⌊(360000 : ℚ) + 1 / 2⌋ := by
      apply Int.floor_le_floor
      nlinarith
    calc (⌊min ((1000 : ℚ) * 2 ^ n) (5 * 60 * 1000) * (1 + r * (20 / 100)) + 1 / 2⌋ : ℤ) ≤
          ⌊(360000 : ℚ) + 1 / 2⌋ := hfl
      _ = 360000 := by norm_num

/-- C5 (witness): the amended bound instantiated at `n = 2`, `r = 0`. -/
theorem backoffDelay_bounded_witness :
    backoffDelay 2 0 = jitter (min ((1000 : ℚ) * 2 ^ 2) 300000) 20 0 ∧
      backoffDelay 2 0 ≤ 360000 :=
  backoffDelay_eq_jitter_and_bounded 2 0 (by norm_num) (by norm_num)

/-- C2: the classifier rejects a candidate exactly when one of the four
ordered rejection signals matches — short/missing name, junk phrase,
no usable price and no usable image, or sentence-shaped name — and in
particular rejects `{name: "Just a moment...", price: 0, imageUrl: ""}`. -/
theorem isValidProductData_iff_signals :
    (∀ d : ProductData, isValidProductData d = false ↔
      (rejShortName d = true ∨ rejJunkPhrase d = true ∨
        rejNoPriceNoImage d = true ∨ rejSentenceName d = true)) ∧
    isValidProductData
      { name := some "Just a moment...", price := some 0, imageUrl := some "",
        stockStatus := .unknown, variants := [], maxPurchaseQty := none } = false := by
  constructor
  · intro d
    cases h : d.name with
    | none =>
      simp [isValidProductData, rejShortName, h]
    | some nm =>
      simp only [isValidProductData, rejShortName, rejJunkPhrase,
        rejNoPriceNoImage, rejSentenceName, h]
      split_ifs <;> simp_all
  · decide

/-- C1 (counterexample): 5 consecutive junk-classified checks on a
healthy active product raise `errorCount` to 5 but leave `monitorState`
`active` — the junk path never sets the error state. -/
theorem junk_checks_do_not_error :
    (junkStep^[5] baseProduct).errorCount = 5 ∧
      (junkStep^[5] baseProduct).monitorState = .active := by
  decide

/-- C1 (amended): an active product's `monitorState` moves to `error`
exactly when the check is a total fetch failure (thrown error) and the
resulting `errorCount` reaches exactly 5; junk-classified checks
increment `errorCount` but never change `monitorState`, and no valid
check moves an active product to `error`. -/
theorem monitorState_error_iff (g : String → String) (p : Product)
    (s : Settings) (now : ℤ) (oc : FetchOutcome)
    (hp : p.monitorState = .active) :
    (checkProduct g p s now oc).product.monitorState = .error ↔
      ((∃ msg, oc = .failure msg) ∧ p.errorCount + 1 = 5) := by
  cases oc with
  | failure msg =>
    by_cases h5 : p.errorCount + 1 = 5
    · simp [checkProduct, failProduct, h5]
    · simp [checkProduct, failProduct, h5, hp]
  | fetched data =>
    by_cases hv : isValidProductData data
    · simp [checkProduct, hv, validProduct, hp]
    · simp [checkProduct, hv, junkProduct, hp]

/-- C1 (witness): a fetch failure on an active product with 4 prior
errors moves it to the error state. -/
theorem monitorState_error_witness :
    (checkProduct fSlug { baseProduct with errorCount := 4 } s₀ 0
      (.failure "net down")).product.monitorState = .error :=
  (monitorState_error_iff fSlug { baseProduct with errorCount := 4 } s₀ 0
    (.failure "net down") rfl).mpr ⟨⟨"net down", rfl⟩, rfl⟩

/-- C3: on a valid check with positive old and new prices and a strict
decrease, `previousPrice` is set to the old price regardless of the size
of the decrease, and the `PriceDrop` event is emitted exactly when the
percentage decrease reaches `settings.priceDropThreshold`. -/
theorem priceDrop_iff_threshold (g : String → String) (p : Product)
    (s : Settings) (now : ℤ) (data : ProductData) (np : ℚ)
    (hv : isValidProductData data = true)
    (hps : data.price = some np) (hnp : 0 < np)
    (hold : 0 < p.currentPrice) (hlt : np < p.currentPrice) :
    (checkProduct g p s now (.fetched data)).product.previousPrice =
      some p.currentPrice ∧
    (Event.priceDrop p.currentPrice np ∈
        (checkProduct g p s now (.fetched data)).events ↔
      s.priceDropThreshold ≤ (p.currentPrice - np) / p.currentPrice * 100) := by
  have hnew : newPriceOf p data = np := by simp [newPriceOf, hps, hnp]
  have hdrop : dropCond p data := by
    refine ⟨?_, hold, ?_⟩ <;> rw [hnew] <;> assumption
  have hpct : dropPct p data = (p.currentPrice - np) / p.currentPrice * 100 := by
    rw [dropPct, hnew]
  constructor
  · simp [checkProduct, hv, validProduct, if_pos hdrop]
  · rw [← hpct]
    by_cases hth : s.priceDropThreshold ≤ dropPct p data
    · simp [checkProduct, hv, validEvents, mem_ite_nil, hth, hdrop, hnew]
    · simp [checkProduct, hv, validEvents, mem_ite_nil, hth, hdrop]

/-- C3 (witness): price 100 drops to 80 with threshold 10: `previousPrice`
records 100 and the event fires since the decrease is 20%. -/
theorem priceDrop_witness :
    (checkProduct fSlug baseProduct s₀ 0 (.fetched dropData)).product.previousPrice =
      some (99 : ℚ) ∧
    (Event.priceDrop 99 80 ∈
        (checkProduct fSlug baseProduct s₀ 0 (.fetched dropData)).events ↔
      s₀.priceDropThreshold ≤ ((99 : ℚ) - 80) / 99 * 100) :=
  priceDrop_iff_threshold fSlug baseProduct s₀ 0 dropData 80 (by decide) rfl
    (by norm_num) (by norm_num [baseProduct]) (by norm_num [baseProduct])

/-- C4: on a valid check the `Restocked` event fires exactly when the
new status is `in_stock` and the old one is `out_of_stock` or `unknown`,
and when it fires the updates set `lastInStock` to the current time. -/
theorem restocked_iff (g : String → String) (p : Product) (s : Settings)
    (now : ℤ) (data : ProductData)
    (hv : isValidProductData data = true) :
    (Event.restocked ∈ (checkProduct g p s now (.fetched data)).events ↔
      (data.stockStatus = .inStock ∧
        (p.stockStatus = .outOfStock ∨ p.stockStatus = .unknown))) ∧
    (restockCond p data →
      (checkProduct g p s now (.fetched data)).product.lastInStock = some now) := by
  constructor
  · simp [checkProduct, hv, validEvents, mem_ite_nil, restockCond]
  · intro h
    simp [checkProduct, hv, validProduct, if_pos h]

/-- C4 (witness): an `out_of_stock → in_stock` transition on a valid
check fires `Restocked` and stamps `lastInStock`. -/
theorem restocked_witness :
    (Event.restocked ∈
        (checkProduct fSlug { baseProduct with stockStatus := .outOfStock } s₀ 7
          (.fetched dropData)).events ↔
      (dropData.stockStatus = .inStock ∧
        (({ baseProduct with stockStatus := .outOfStock } : Product).stockStatus = .outOfStock ∨
          ({ baseProduct with stockStatus := .outOfStock } : Product).stockStatus = .unknown))) ∧
    (restockCond { baseProduct with stockStatus := .outOfStock } dropData →
      (checkProduct fSlug { baseProduct with stockStatus := .outOfStock } s₀ 7
        (.fetched dropData)).product.lastInStock = some 7) :=
  restocked_iff fSlug { baseProduct with stockStatus := .outOfStock } s₀ 7 dropData
    (by decide)

/-- C6: on a valid check the persisted history is the new snapshot
prepended to the old history and then truncated to the first
`maxHistoryPerProduct` entries (so only the oldest tail entries are
dropped), and its length never exceeds the cap. -/
theorem history_prepend_truncate (g : String → String) (p : Product)
    (s : Settings) (now : ℤ) (data : ProductData)
    (hv : isValidProductData data = true) :
    (checkProduct g p s now (.fetched data)).product.history =
      (checkSnapshot p data now :: p.history).take s.maxHistoryPerProduct ∧
    (checkProduct g p s now (.fetched data)).product.history.length ≤
      s.maxHistoryPerProduct := by
  constructor
  · simp [checkProduct, hv, validProduct]
  · simp only [checkProduct, hv, if_pos, validProduct, List.length_take]
    exact min_le_left _ _

/-- C6 (witness): the history update on a concrete valid check. -/
theorem history_prepend_truncate_witness :
    (checkProduct fSlug baseProduct s₀ 3 (.fetched dropData)).product.history =
      (checkSnapshot baseProduct dropData 3 :: baseProduct.history).take
        s₀.maxHistoryPerProduct ∧
    (checkProduct fSlug baseProduct s₀ 3 (.fetched dropData)).product.history.length ≤
      s₀.maxHistoryPerProduct :=
  history_prepend_truncate fSlug baseProduct s₀ 3 dropData (by decide)

/-- C7: a check that classifies as valid resets `errorCount` to 0 and
clears `lastError` whatever the prior error count, and restores an
`error`-state product to `active`. -/
theorem valid_check_resets_errors (g : String → String) (p : Product)
    (s : Settings) (now : ℤ) (data : ProductData)
    (hv : isValidProductData data = true) :
    (checkProduct g p s now (.fetched data)).product.errorCount = 0 ∧
    (checkProduct g p s now (.fetched data)).product.lastError = none ∧
    (p.monitorState = .error →
      (checkProduct g p s now (.fetched data)).product.monitorState = .active) := by
  refine ⟨?_, ?_, ?_⟩ <;> simp [checkProduct, hv, validProduct]
  exact fun h1 h2 => absurd h1 h2

/-- C7 (witness): a product with 7 errors in the error state returns to
`active` with `errorCount` 0 on the next valid check. -/
theorem valid_check_resets_errors_witness :
    (checkProduct fSlug
      { baseProduct with errorCount := 7, monitorState := .error } s₀ 0
      (.fetched dropData)).product.errorCount = 0 ∧
    (checkProduct fSlug
      { baseProduct with errorCount := 7, monitorState := .error } s₀ 0
      (.fetched dropData)).product.lastError = none ∧
    (({ baseProduct with errorCount := 7, monitorState := .error } : Product).monitorState = .error →
      (checkProduct fSlug
        { baseProduct with errorCount := 7, monitorState := .error } s₀ 0
        (.fetched dropData)).product.monitorState = .active) :=
  valid_check_resets_errors fSlug
    { baseProduct with errorCount := 7, monitorState := .error } s₀ 0 dropData
    (by decide)

/-- C8: a junk-classified check leaves `currentPrice`, `stockStatus`,
`imageUrl` and `history` (and the other product data) untouched, only
stamps `lastChecked`, increments `errorCount`, sets `lastError` (and
repairs `name` only when the stored record itself fails the classifier),
and every item of the tick is still processed. -/
theorem junk_check_frame (g : String → String) (p : Product) (s : Settings)
    (now : ℤ) (data : ProductData)
    (hj : isValidProductData data = false) :
    (checkProduct g p s now (.fetched data)).product.currentPrice = p.currentPrice ∧
    (checkProduct g p s now (.fetched data)).product.stockStatus = p.stockStatus ∧
    (checkProduct g p s now (.fetched data)).product.imageUrl = p.imageUrl ∧
    (checkProduct g p s now (.fetched data)).product.history = p.history ∧
    (checkProduct g p s now (.fetched data)).product.previousPrice = p.previousPrice ∧
    (checkProduct g p s now (.fetched data)).product.lastInStock = p.lastInStock ∧
    (checkProduct g p s now (.fetched data)).product.monitorState = p.monitorState ∧
    (checkProduct g p s now (.fetched data)).product.errorCount = p.errorCount + 1 ∧
    (checkProduct g p s now (.fetched data)).product.lastChecked = some now ∧
    (checkProduct g p s now (.fetched data)).product.lastError =
      some (junkErrorMsg data) ∧
    (isValidProductData (junkSelfCheck p) = true →
      (checkProduct g p s now (.fetched data)).product.name = p.name) ∧
    (∀ items : List (Product × FetchOutcome),
      (runTick g s now items).length = items.length) := by
  refine ⟨?_, ?_, ?_, ?_, ?_, ?_, ?_, ?_, ?_, ?_, ?_, ?_⟩ <;>
    simp [checkProduct, hj, junkProduct, runTick]
  intro h1 h2
  rw [h1] at h2
  simp at h2

/-- C8 (witness): a junk 404 response against a healthy stored product. -/
theorem junk_check_frame_witness :
    (checkProduct fSlug baseProduct s₀ 5 (.fetched junkData404)).product.currentPrice =
      baseProduct.currentPrice ∧
    (checkProduct fSlug baseProduct s₀ 5 (.fetched junkData404)).product.stockStatus =
      baseProduct.stockStatus ∧
    (checkProduct fSlug baseProduct s₀ 5 (.fetched junkData404)).product.imageUrl =
      baseProduct.imageUrl ∧
    (checkProduct fSlug baseProduct s₀ 5 (.fetched junkData404)).product.history =
      baseProduct.history ∧
    (checkProduct fSlug baseProduct s₀ 5 (.fetched junkData404)).product.previousPrice =
      baseProduct.previousPrice ∧
    (checkProduct fSlug baseProduct s₀ 5 (.fetched junkData404)).product.lastInStock =
      baseProduct.lastInStock ∧
    (checkProduct fSlug baseProduct s₀ 5 (.fetched junkData404)).product.monitorState =
      baseProduct.monitorState ∧
    (checkProduct fSlug baseProduct s₀ 5 (.fetched junkData404)).product.errorCount =
      baseProduct.errorCount + 1 ∧
    (checkProduct fSlug baseProduct s₀ 5 (.fetched junkData404)).product.lastChecked =
      some 5 ∧
    (checkProduct fSlug baseProduct s₀ 5 (.fetched junkData404)).product.lastError =
      some (junkErrorMsg junkData404) ∧
    (isValidProductData (junkSelfCheck baseProduct) = true →
      (checkProduct fSlug baseProduct s₀ 5 (.fetched junkData404)).product.name =
        baseProduct.name) ∧
    (∀ items : List (Product × FetchOutcome),
      (runTick fSlug s₀ 5 items).length = items.length) :=
  junk_check_frame fSlug baseProduct s₀ 5 junkData404 (by decide)

/-- C10: a valid check whose fetched price is absent or ≤ 0 keeps the
stored `currentPrice`, writes the old price into the appended history
snapshot, and can never emit a `PriceDrop` event. -/
theorem nonpositive_price_reuses_old (g : String → String) (p : Product)
    (s : Settings) (now : ℤ) (data : ProductData)
    (hv : isValidProductData data = true)
    (hple : ∀ q, data.price = some q → q ≤ 0) :
    (checkProduct g p s now (.fetched data)).product.currentPrice = p.currentPrice ∧
    (checkSnapshot p data now).price = p.currentPrice ∧
    (∀ a b : ℚ, Event.priceDrop a b ∉
        (checkProduct g p s now (.fetched data)).events) := by
  have hnew : newPriceOf p data = p.currentPrice := by
    unfold newPriceOf
    cases hq : data.price with
    | none => rfl
    | some q => simp [not_lt.mpr (hple q hq)]
  have hnd : ¬ dropCond p data := by
    rw [dropCond, hnew]
    rintro ⟨-, -, h⟩
    exact lt_irrefl _ h
  refine ⟨?_, ?_, fun a b => ?_⟩
  · simp [checkProduct, hv, validProduct, hnew]
  · simp [checkSnapshot, hnew]
  · simp [checkProduct, hv, validEvents, mem_ite_nil, hnd]

/-- C10 (witness): a valid page with price 0 (image present) keeps the
stored price 99. -/
theorem nonpositive_price_witness :
    (checkProduct fSlug baseProduct s₀ 0
      (.fetched { dropData with price := some 0 })).product.currentPrice =
      baseProduct.currentPrice ∧
    (checkSnapshot baseProduct { dropData with price := some 0 } 0).price =
      baseProduct.currentPrice ∧
    (∀ a b : ℚ, Event.priceDrop a b ∉
        (checkProduct fSlug baseProduct s₀ 0
          (.fetched { dropData with price := some 0 })).events) :=
  nonpositive_price_reuses_old fSlug baseProduct s₀ 0
    { dropData with price := some 0 } (by decide)
    (by rintro q h; simp_all)

/-- The add-to-cart success update never touches `monitorState`. -/
theorem cartSuccessProduct_monitorState (p : Product) (pm : Option ℕ) :
    (cartSuccessProduct p pm).monitorState = p.monitorState := by
  rcases pm with _ | m
  · rfl
  · by_cases h : 0 < m <;> simp [cartSuccessProduct, h]

/-- C9 (counterexample): when every attempt fails, the run makes 3
attempts with failure logged, but sleeps only 3000 ms and 6000 ms
between them — no 12000 ms sleep ever occurs. -/
theorem addToCart_no_12s_sleep :
    (triggerAddToCart (fun _ => .failure "Content script returned failure")
        baseProduct).attempts = 3 ∧
    (triggerAddToCart (fun _ => .failure "Content script returned failure")
        baseProduct).sleeps = [3000, 6000] ∧
    (12000 : ℕ) ∉
      (triggerAddToCart (fun _ => .failure "Content script returned failure")
        baseProduct).sleeps := by
  refine ⟨rfl, rfl, ?_⟩
  decide

/-- C9 (amended): the automation attempts the purchase action at most 3
times (each attempt with its own resource acquisition and outcome),
sleeping doubling delays of 3 s then 6 s between consecutive attempts
(no sleep follows the final attempt, so no 12 s sleep occurs); when no
attempt succeeds a failure log entry is recorded, and the workflow never
modifies `monitorState`. -/
theorem addToCart_retry_schedule (f : ℕ → AttemptOutcome) (p : Product) :
    1 ≤ (triggerAddToCart f p).attempts ∧
    (triggerAddToCart f p).attempts ≤ 3 ∧
    (triggerAddToCart f p).sleeps =
      (List.range ((triggerAddToCart f p).attempts - 1)).map
        (fun i => ADD_CART_BASE_DELAY * 2 ^ i) ∧
    ((triggerAddToCart f p).succeeded = false →
      (triggerAddToCart f p).failureLogged = true) ∧
    (triggerAddToCart f p).product.monitorState = p.monitorState := by
  unfold triggerAddToCart ADD_CART_MAX_RETRIES
  rcases h1 : f 1 with ⟨pm1, w1⟩ | ⟨e1⟩ | ⟨e1⟩ <;>
    rcases h2 : f 2 with ⟨pm2, w2⟩ | ⟨e2⟩ | ⟨e2⟩ <;>
    rcases h3 : f 3 with ⟨pm3, w3⟩ | ⟨e3⟩ | ⟨e3⟩ <;>
    simp [cartGo, h1, h2, h3, cartSuccessProduct_monitorState,
      List.range_succ, ADD_CART_BASE_DELAY]

end KSM

